import Mathlib

/-!
Verification development for umoci's `raw runtime-config` subcommand
(cmd/umoci/raw-runtime-config.go): the reference-resolution and
runtime-config-synthesis pipeline.

The Go action `rawConfig` and the CLI `Before` hook are embedded as pure
Lean functions over an explicit world (the content-addressable store plus
an output filesystem) together with a chronological trace of the
observable resource events (engine open/close, blob fetch/close, output
file create/close, logging).  External collaborators that the action calls
but whose code is not part of this file's source — `umoci.ParseIdmapOptions`,
`dir.Open`, the `casext` engine's `ResolveReference`/`FromDescriptor`, the
config creation (`os.Create`) and `layer.UnpackRuntimeJSON` — are modelled
as function-valued fields of an environment / store record, constrained
only by their interface boundary.
-/

namespace Umoci

/-- Media type constant `ispec.MediaTypeImageManifest` from the OCI image
spec (the single manifest media type the command supports). -/
def MediaTypeImageManifest : String := "application/vnd.oci.image.manifest.v1+json"

/-- An OCI content descriptor: declared media type, content digest, size. -/
structure Descriptor where
  mediaType : String
  digest : String
  size : Nat
deriving DecidableEq, Repr, Inhabited

/-- Modelled from the spec: `casext.DescriptorPath`, an ordered chain from a
root index down to a leaf content descriptor (the `casext` package is not
part of the shown source).  `descriptor` returns the terminal element, as
`DescriptorPath.Descriptor()` does. -/
structure DescriptorPath where
  walk : List Descriptor
deriving DecidableEq, Repr, Inhabited

/-- Terminal descriptor of a descriptor path. -/
def DescriptorPath.descriptor (p : DescriptorPath) : Descriptor :=
  p.walk.getLastD default

/-- An image manifest: a config descriptor and an ordered layer sequence. -/
structure Manifest where
  config : Descriptor
  layers : List Descriptor
deriving DecidableEq, Repr, Inhabited

/-- Modelled from the spec: the decoded content of a fetched blob
(`casext` decodes a blob according to its declared media type into one of
a closed set of variants; design note §9 of the spec). -/
inductive BlobData where
  | manifest (m : Manifest)
  | index (manifests : List Descriptor)
  | raw (bytes : List Nat)
deriving DecidableEq, Repr

/-- A fetched blob: the descriptor it was fetched through and its decoded
data (`casext.Blob`). -/
structure Blob where
  descriptor : Descriptor
  data : BlobData
deriving DecidableEq, Repr

/-- A Go error value: either a fresh message (`errors.Errorf`/`fmt.Errorf`)
or an inner error wrapped with an operation context (`errors.Wrap err ctxt`). -/
inductive GoError where
  | msg (s : String)
  | wrap (inner : GoError) (context : String)
deriving DecidableEq, Repr

/-- Whether a Go error carries an operation-context wrapping at its top. -/
def GoError.isWrapped : GoError → Bool
  | .msg _ => false
  | .wrap _ _ => true

/-- One UID or GID remapping directive (host start, container start, length). -/
structure IDMapSpec where
  hostID : Nat
  containerID : Nat
  size : Nat
deriving DecidableEq, Repr

/-- Normalized mapping options (`umoci.MapOptions`): UID and GID remapping
ranges plus the rootless flag; the empty lists are the identity mapping. -/
structure MapOptions where
  uidMappings : List IDMapSpec
  gidMappings : List IDMapSpec
  rootless : Bool
deriving DecidableEq, Repr, Inhabited

/-- Modelled from the spec: the content-addressable store accessor boundary
(spec §6): a query from a reference name to the matching descriptor paths,
and a fetch from a descriptor to a decoded blob.  Both are read-only
queries (spec §5); either may fail with an arbitrary error. -/
structure Store where
  resolveReference : String → Except GoError (List DescriptorPath)
  fromDescriptor : Descriptor → Except GoError Blob

/-- Well-formedness of the store's decode step, modelled from the spec
(design note §9): a fetched blob whose declared media type is the image
manifest media type decodes to the manifest variant. -/
def Store.WF (s : Store) : Prop :=
  ∀ d b, s.fromDescriptor d = .ok b →
    b.descriptor.mediaType = MediaTypeImageManifest → ∃ m, b.data = .manifest m

/-- Output filesystem: an association of paths to file contents (byte lists). -/
def setFileList : List (String × List Nat) → String → List Nat → List (String × List Nat)
  | [], p, c => [(p, c)]
  | (q, d) :: rest, p, c =>
    if q = p then (q, c) :: rest else (q, d) :: setFileList rest p c

/-- Content lookup in the association list underlying the filesystem. -/
def lookupFile : List (String × List Nat) → String → Option (List Nat)
  | [], _ => none
  | (q, c) :: rest, p => if q = p then some c else lookupFile rest p

/-- The destination filesystem the command writes its output document to. -/
structure FS where
  files : List (String × List Nat)
deriving DecidableEq, Repr

/-- Create or truncate-and-overwrite the file at `p` with content `c`. -/
def FS.setFile (fs : FS) (p : String) (c : List Nat) : FS :=
  ⟨setFileList fs.files p c⟩

/-- Content of the file at `p`, if present. -/
def FS.lookup (fs : FS) (p : String) : Option (List Nat) :=
  lookupFile fs.files p

/-- The mutable world an invocation acts on: the content-addressable store
and the destination filesystem. -/
structure World where
  store : Store
  fs : FS

/-- Observable resource events of one invocation, in chronological order. -/
inductive Event where
  | engineOpen
  | engineClose
  | blobFetch (d : Descriptor)
  | blobClose
  | fileCreate (path : String)
  | fileClose
  | logEntry (s : String)
deriving DecidableEq, BEq, Repr

/-- Environment of external collaborators whose code is outside the shown
source file.  `parseIdmap` is `umoci.ParseIdmapOptions` (spec §4.2);
`dirOpenErr` is the failure behaviour of `dir.Open`; `createErr` is the
failure behaviour of `os.Create` at a path; `unpackRuntimeJSON` is
`layer.UnpackRuntimeJSON`, modelled from the spec (§4.3) as constructing
the complete output document in memory — it either fails, emitting
nothing, or returns the full byte serialization to be written. -/
structure Env where
  parseIdmap : List String → Except GoError MapOptions
  dirOpenErr : String → Option GoError
  createErr : String → Option GoError
  unpackRuntimeJSON : Store → Manifest → MapOptions → String → Except GoError (List Nat)

/-- The CLI context reaching the subcommand: positional arguments, the
`--image` path and tag (global metadata), the `--rootfs` flag value (empty
string when absent, as `ctx.String` yields) and the raw remapping flags. -/
structure CliContext where
  args : List String
  imagePath : String
  imageTag : String
  rootfs : String
  rawIdmapFlags : List String
deriving DecidableEq, Repr

/-- Result of one invocation: the returned error status, the final world,
and the chronological event trace. -/
structure Outcome where
  result : Except GoError Unit
  world : World
  events : List Event

/-- The `Before` hook of `rawConfigCommand`: exactly one positional
argument, which must be non-empty; on success it is stored in the app
metadata as the destination config path. -/
def rawConfigBefore (args : List String) : Except GoError String :=
  if args.length ≠ 1 then
    .error (.msg ("invalid number of positional arguments: expected <config.json>"))
  else if args.headD ("") = "" then
    .error (.msg ("config.json path cannot be empty"))
  else
    .ok (args.headD (""))

/-- The `rawConfig` action (cmd/umoci/raw-runtime-config.go), embedded
step for step: parse the idmap options; open the CAS engine (deferring its
close); resolve the reference, rejecting zero matches as not found and
several matches as ambiguous; fetch the manifest blob (deferring its
close); require the image-manifest media type; assert the decoded data is
a manifest; create the destination file (deferring its close); generate
and write the runtime config. -/
def rawConfig (env : Env) (ctx : CliContext) (configPath : String) (w : World) : Outcome :=
  match env.parseIdmap ctx.rawIdmapFlags with
  | .error e => ⟨.error e, w, []⟩
  | .ok mapOptions =>
    match env.dirOpenErr ctx.imagePath with
    | some e => ⟨.error (.wrap e ("open CAS")), w, []⟩
    | none =>
      match w.store.resolveReference ctx.imageTag with
      | .error e => ⟨.error (.wrap e ("get descriptor")), w, [.engineOpen, .engineClose]⟩
      | .ok fromDescriptorPaths =>
        if fromDescriptorPaths.length = 0 then
          ⟨.error (.msg (("tag not found: ") ++ ctx.imageTag)), w, [.engineOpen, .engineClose]⟩
        else if fromDescriptorPaths.length ≠ 1 then
          ⟨.error (.msg (("tag is ambiguous: ") ++ ctx.imageTag)), w, [.engineOpen, .engineClose]⟩
        else
          match w.store.fromDescriptor (fromDescriptorPaths.headD default).descriptor with
          | .error e =>
            ⟨.error (.wrap e ("get manifest")), w,
              [.engineOpen, .blobFetch (fromDescriptorPaths.headD default).descriptor, .engineClose]⟩
          | .ok manifestBlob =>
            if manifestBlob.descriptor.mediaType ≠ MediaTypeImageManifest then
              ⟨.error (.wrap (.msg (("descriptor does not point to ispec.MediaTypeImageManifest: not implemented: ")
                  ++ manifestBlob.descriptor.mediaType)) ("invalid --image tag")), w,
                [.engineOpen, .blobFetch (fromDescriptorPaths.headD default).descriptor, .blobClose,
                  .engineClose]⟩
            else
              match manifestBlob.data with
              | .manifest manifest =>
                match env.createErr configPath with
                | some e =>
                  ⟨.error (.wrap e ("opening config path")), w,
                    [.engineOpen, .blobFetch (fromDescriptorPaths.headD default).descriptor,
                      .blobClose, .engineClose]⟩
                | none =>
                  match env.unpackRuntimeJSON w.store manifest mapOptions ctx.rootfs with
                  | .error e =>
                    ⟨.error (.wrap e ("generate config")), ⟨w.store, w.fs.setFile configPath []⟩,
                      [.engineOpen, .blobFetch (fromDescriptorPaths.headD default).descriptor,
                        .fileCreate configPath, .logEntry ("generating config.json"), .fileClose,
                        .blobClose, .engineClose]⟩
                  | .ok bytes =>
                    ⟨.ok (), ⟨w.store, (w.fs.setFile configPath []).setFile configPath bytes⟩,
                      [.engineOpen, .blobFetch (fromDescriptorPaths.headD default).descriptor,
                        .fileCreate configPath, .logEntry ("generating config.json"), .fileClose,
                        .blobClose, .engineClose]⟩
              | _ =>
                ⟨.error (.msg (("[internal error] unknown manifest blob type: ")
                    ++ manifestBlob.descriptor.mediaType)), w,
                  [.engineOpen, .blobFetch (fromDescriptorPaths.headD default).descriptor,
                    .blobClose, .engineClose]⟩

/-- One full invocation of the subcommand: the `Before` hook validates the
positional arguments and stores the config path; only then does the
action run. -/
def runCommand (env : Env) (ctx : CliContext) (w : World) : Outcome :=
  match rawConfigBefore ctx.args with
  | .error e => ⟨.error e, w, []⟩
  | .ok configPath => rawConfig env ctx configPath w

/-! Helper lemmas about the filesystem model. -/

/-- Writing a file twice at the same path keeps only the last content. -/
theorem setFileList_setFileList (l : List (String × List Nat)) (p : String) (a b : List Nat) :
    setFileList (setFileList l p a) p b = setFileList l p b := by
  induction l with
  | nil => simp [setFileList]
  | cons hd tl ih =>
    obtain ⟨q, d⟩ := hd
    by_cases h : q = p
    · simp [setFileList, h]
    · simp [setFileList, h, ih]

/-- Writing a file twice at the same path keeps only the last content. -/
theorem FS.setFile_setFile (fs : FS) (p : String) (a b : List Nat) :
    (fs.setFile p a).setFile p b = fs.setFile p b := by
  simp [FS.setFile, setFileList_setFileList]

/-- Looking up a freshly written path returns the written content. -/
theorem lookupFile_setFileList (l : List (String × List Nat)) (p : String) (c : List Nat) :
    lookupFile (setFileList l p c) p = some c := by
  induction l with
  | nil => simp [setFileList, lookupFile]
  | cons hd tl ih =>
    obtain ⟨q, d⟩ := hd
    by_cases h : q = p
    · simp [setFileList, lookupFile, h]
    · simp [setFileList, lookupFile, h, ih]

/-- Looking up a freshly written path returns the written content. -/
theorem FS.lookup_setFile (fs : FS) (p : String) (c : List Nat) :
    (fs.setFile p c).lookup p = some c := by
  simp [FS.setFile, FS.lookup, lookupFile_setFileList]

/-! Concrete fixtures used by the witness and counterexample theorems. -/

/-- Identity mapping options (no remapping directives). -/
def mo0 : MapOptions := ⟨[], [], false⟩

/-- A manifest descriptor fixture. -/
def dManifest : Descriptor := ⟨MediaTypeImageManifest, ("sha256:aaaa"), 348⟩

/-- An index descriptor fixture (an unsupported media type). -/
def dIndex : Descriptor := ⟨("application/vnd.oci.image.index.v1+json"), ("sha256:bbbb"), 120⟩

/-- A config descriptor fixture. -/
def dConfig : Descriptor := ⟨("application/vnd.oci.image.config.v1+json"), ("sha256:cccc"), 99⟩

/-- A layer descriptor fixture. -/
def dLayer : Descriptor := ⟨("application/vnd.oci.image.layer.v1.tar+gzip"), ("sha256:dddd"), 4096⟩

/-- A descriptor path ending at the manifest descriptor. -/
def path0 : DescriptorPath := ⟨[dManifest]⟩

/-- A second, distinct descriptor path to the same manifest descriptor. -/
def path1 : DescriptorPath := ⟨[dIndex, dManifest]⟩

/-- A descriptor path ending at the index descriptor. -/
def pathIdx : DescriptorPath := ⟨[dIndex]⟩

/-- A manifest fixture with one layer. -/
def manifest0 : Manifest := ⟨dConfig, [dLayer]⟩

/-- A blob holding `manifest0` under the manifest media type. -/
def manifestBlob0 : Blob := ⟨dManifest, .manifest manifest0⟩

/-- A blob holding an index under the index media type. -/
def indexBlob0 : Blob := ⟨dIndex, .index [dManifest]⟩

/-- A CLI context fixture: one positional argument, tag `latest`. -/
def ctx0 : CliContext := ⟨[("config.json")], ("image"), ("latest"), (""), []⟩

/-- An empty destination filesystem. -/
def fs0 : FS := ⟨[]⟩

/-- A store in which every reference resolves to exactly one path. -/
def storeOne : Store := ⟨fun _ => .ok [path0], fun _ => .ok manifestBlob0⟩

/-- A store in which every reference resolves to two paths. -/
def storeAmb : Store := ⟨fun _ => .ok [path0, path1], fun _ => .ok manifestBlob0⟩

/-- A store in which no reference resolves to any path. -/
def storeNone : Store := ⟨fun _ => .ok [], fun _ => .ok manifestBlob0⟩

/-- A store resolving to one path whose blob is an index, not a manifest. -/
def storeBadType : Store := ⟨fun _ => .ok [pathIdx], fun _ => .ok indexBlob0⟩

/-- A store whose resolution step fails with an IO-style error. -/
def storeResolveFail : Store :=
  ⟨fun _ => .error (.msg ("io failure")), fun _ => .ok manifestBlob0⟩

/-- An environment in which every collaborator succeeds. -/
def envOK : Env :=
  ⟨fun _ => .ok mo0, fun _ => none, fun _ => none, fun _ _ _ _ => .ok [123, 10]⟩

/-- An environment whose idmap parsing fails. -/
def envParseFail : Env :=
  ⟨fun _ => .error (.msg ("invalid idmap options")), fun _ => none, fun _ => none,
    fun _ _ _ _ => .ok [123, 10]⟩

/-- An environment whose config generation (synthesis) step fails. -/
def envUnpackFail : Env :=
  ⟨fun _ => .ok mo0, fun _ => none, fun _ => none,
    fun _ _ _ _ => .error (.msg ("rootfs does not exist"))⟩

/-! Claim theorems. -/

/-- C1: for every reference name whose store query returns more than one
descriptor path, the pipeline fails with the ambiguity error naming the
reference, fetches no blob (so it never selects one of the paths), and
creates no output file: the filesystem is unchanged. -/
theorem C1_ambiguous_reference_fails (env : Env) (ctx : CliContext) (configPath : String)
    (w : World) (mo : MapOptions) (paths : List DescriptorPath)
    (hp : env.parseIdmap ctx.rawIdmapFlags = .ok mo)
    (ho : env.dirOpenErr ctx.imagePath = none)
    (hr : w.store.resolveReference ctx.imageTag = .ok paths)
    (hl : 1 < paths.length) :
    rawConfig env ctx configPath w =
      ⟨.error (.msg (("tag is ambiguous: ") ++ ctx.imageTag)), w, [.engineOpen, .engineClose]⟩
    ∧ (∀ d, Event.blobFetch d ∉ (rawConfig env ctx configPath w).events)
    ∧ (∀ q, Event.fileCreate q ∉ (rawConfig env ctx configPath w).events)
    ∧ (rawConfig env ctx configPath w).world.fs = w.fs := by
  have h0 : ¬ paths.length = 0 := by omega
  have h1 : paths.length ≠ 1 := by omega
  have hmain : rawConfig env ctx configPath w =
      ⟨.error (.msg (("tag is ambiguous: ") ++ ctx.imageTag)), w, [.engineOpen, .engineClose]⟩ := by
    simp only [rawConfig, hp, ho, hr]
    simp [h0, h1]
  refine ⟨hmain, ?_, ?_, ?_⟩ <;> rw [hmain] <;> simp

/-- C1 witness: a store resolving `latest` to two descriptor paths. -/
theorem C1_witness :
    rawConfig envOK ctx0 ("config.json") ⟨storeAmb, fs0⟩ =
      ⟨.error (.msg (("tag is ambiguous: ") ++ ctx0.imageTag)), ⟨storeAmb, fs0⟩,
        [.engineOpen, .engineClose]⟩
    ∧ (∀ d, Event.blobFetch d ∉ (rawConfig envOK ctx0 ("config.json") ⟨storeAmb, fs0⟩).events)
    ∧ (∀ q, Event.fileCreate q ∉ (rawConfig envOK ctx0 ("config.json") ⟨storeAmb, fs0⟩).events)
    ∧ (rawConfig envOK ctx0 ("config.json") ⟨storeAmb, fs0⟩).world.fs = fs0 :=
  C1_ambiguous_reference_fails envOK ctx0 ("config.json") ⟨storeAmb, fs0⟩ mo0 [path0, path1]
    rfl rfl rfl (by decide)

/-- C2: for every reference name whose store query returns zero descriptor
paths, the pipeline fails with the not-found error naming the reference and
performs no blob fetch. -/
theorem C2_not_found_no_fetch (env : Env) (ctx : CliContext) (configPath : String)
    (w : World) (mo : MapOptions)
    (hp : env.parseIdmap ctx.rawIdmapFlags = .ok mo)
    (ho : env.dirOpenErr ctx.imagePath = none)
    (hr : w.store.resolveReference ctx.imageTag = .ok []) :
    rawConfig env ctx configPath w =
      ⟨.error (.msg (("tag not found: ") ++ ctx.imageTag)), w, [.engineOpen, .engineClose]⟩
    ∧ (∀ d, Event.blobFetch d ∉ (rawConfig env ctx configPath w).events) := by
  have hmain : rawConfig env ctx configPath w =
      ⟨.error (.msg (("tag not found: ") ++ ctx.imageTag)), w, [.engineOpen, .engineClose]⟩ := by
    simp only [rawConfig, hp, ho, hr]
    simp
  refine ⟨hmain, ?_⟩
  rw [hmain]
  simp

/-- C2 witness: a store resolving `latest` to no descriptor path. -/
theorem C2_witness :
    rawConfig envOK ctx0 ("config.json") ⟨storeNone, fs0⟩ =
      ⟨.error (.msg (("tag not found: ") ++ ctx0.imageTag)), ⟨storeNone, fs0⟩,
        [.engineOpen, .engineClose]⟩
    ∧ (∀ d, Event.blobFetch d ∉ (rawConfig envOK ctx0 ("config.json") ⟨storeNone, fs0⟩).events) :=
  C2_not_found_no_fetch envOK ctx0 ("config.json") ⟨storeNone, fs0⟩ mo0 rfl rfl rfl

/-- C3: when the resolved path's fetched blob declares a media type other
than the image-manifest media type, the pipeline fails with the
unsupported-media-type error, whose message carries the actual media type,
wrapped as an invalid `--image` tag. -/
theorem C3_unsupported_media_type (env : Env) (ctx : CliContext) (configPath : String)
    (w : World) (mo : MapOptions) (p : DescriptorPath) (b : Blob)
    (hp : env.parseIdmap ctx.rawIdmapFlags = .ok mo)
    (ho : env.dirOpenErr ctx.imagePath = none)
    (hr : w.store.resolveReference ctx.imageTag = .ok [p])
    (hf : w.store.fromDescriptor p.descriptor = .ok b)
    (hm : b.descriptor.mediaType ≠ MediaTypeImageManifest) :
    rawConfig env ctx configPath w =
      ⟨.error (.wrap
          (.msg (("descriptor does not point to ispec.MediaTypeImageManifest: not implemented: ")
            ++ b.descriptor.mediaType))
          ("invalid --image tag")), w,
        [.engineOpen, .blobFetch p.descriptor, .blobClose, .engineClose]⟩ := by
  simp only [rawConfig, hp, ho, hr]
  simp [hf, hm]

/-- C3 witness: the resolved blob is an image index, not a manifest. -/
theorem C3_witness :
    rawConfig envOK ctx0 ("config.json") ⟨storeBadType, fs0⟩ =
      ⟨.error (.wrap
          (.msg (("descriptor does not point to ispec.MediaTypeImageManifest: not implemented: ")
            ++ indexBlob0.descriptor.mediaType))
          ("invalid --image tag")), ⟨storeBadType, fs0⟩,
        [.engineOpen, .blobFetch pathIdx.descriptor, .blobClose, .engineClose]⟩ :=
  C3_unsupported_media_type envOK ctx0 ("config.json") ⟨storeBadType, fs0⟩ mo0 pathIdx indexBlob0
    rfl rfl rfl rfl (by decide)

/-- C4: the runtime-config document is built in memory before any bytes
reach the destination (`unpackRuntimeJSON` either fails emitting nothing
or yields the complete serialization); when synthesis fails, the
invocation fails with the wrapped generation error and the destination
file holds no document bytes (it is the empty file the create step left). -/
theorem C4_no_document_on_synthesis_failure (env : Env) (ctx : CliContext) (configPath : String)
    (w : World) (mo : MapOptions) (p : DescriptorPath) (b : Blob) (m : Manifest) (e : GoError)
    (hp : env.parseIdmap ctx.rawIdmapFlags = .ok mo)
    (ho : env.dirOpenErr ctx.imagePath = none)
    (hr : w.store.resolveReference ctx.imageTag = .ok [p])
    (hf : w.store.fromDescriptor p.descriptor = .ok b)
    (hm : b.descriptor.mediaType = MediaTypeImageManifest)
    (hd : b.data = .manifest m)
    (hc : env.createErr configPath = none)
    (hu : env.unpackRuntimeJSON w.store m mo ctx.rootfs = .error e) :
    (rawConfig env ctx configPath w).result = .error (.wrap e ("generate config"))
    ∧ (rawConfig env ctx configPath w).world.fs.lookup configPath = some [] := by
  have hmain : rawConfig env ctx configPath w =
      ⟨.error (.wrap e ("generate config")), ⟨w.store, w.fs.setFile configPath []⟩,
        [.engineOpen, .blobFetch p.descriptor, .fileCreate configPath,
          .logEntry ("generating config.json"), .fileClose, .blobClose, .engineClose]⟩ := by
    simp only [rawConfig, hp, ho, hr]
    simp [hf, hm, hd, hc, hu]
  rw [hmain]
  exact ⟨rfl, FS.lookup_setFile _ _ _⟩

/-- C4 witness: the synthesis step fails because the supplied rootfs does
not exist; the destination file is left empty. -/
theorem C4_witness :
    (rawConfig envUnpackFail ctx0 ("config.json") ⟨storeOne, fs0⟩).result =
      .error (.wrap (.msg ("rootfs does not exist")) ("generate config"))
    ∧ (rawConfig envUnpackFail ctx0 ("config.json") ⟨storeOne, fs0⟩).world.fs.lookup
        ("config.json") = some [] :=
  C4_no_document_on_synthesis_failure envUnpackFail ctx0 ("config.json") ⟨storeOne, fs0⟩ mo0
    path0 manifestBlob0 manifest0 (.msg ("rootfs does not exist")) rfl rfl rfl rfl rfl rfl rfl rfl

/-- C7: in the event trace of every invocation, the engine-close event
occurs exactly as often as the engine-open event: once the store handle is
acquired it is released on every exit path (the deferred close). -/
theorem C7_engine_handle_released (env : Env) (ctx : CliContext) (configPath : String)
    (w : World) :
    ((rawConfig env ctx configPath w).events.count Event.engineClose) =
      ((rawConfig env ctx configPath w).events.count Event.engineOpen) := by
  unfold rawConfig
  repeat' split
  all_goals rfl

/-- C8: every invocation leaves the content-addressable store exactly as
it found it, on every exit path: resolution and synthesis only read it. -/
theorem C8_store_read_only (env : Env) (ctx : CliContext) (w : World) :
    (runCommand env ctx w).world.store = w.store := by
  unfold runCommand rawConfigBefore rawConfig
  repeat' split
  all_goals rfl

/-- C9: the Before hook rejects the invocation — with the world untouched
and no collaborator event — unless exactly one positional argument is
given and it is non-empty; on success that argument becomes the
destination config path handed to the action. -/
theorem C9_before_validates_args (env : Env) (ctx : CliContext) (w : World) :
    ((¬ (ctx.args.length = 1 ∧ ctx.args.headD ("") ≠ "")) →
      ∃ e, runCommand env ctx w = ⟨.error e, w, []⟩)
    ∧ (ctx.args.length = 1 → ctx.args.headD ("") ≠ "" →
        rawConfigBefore ctx.args = .ok (ctx.args.headD ("")) ∧
        runCommand env ctx w = rawConfig env ctx (ctx.args.headD ("")) w) := by
  constructor
  · intro hbad
    by_cases h1 : ctx.args.length = 1
    · have h2 : ctx.args.headD ("") = "" := by
        by_contra h
        exact hbad ⟨h1, h⟩
      have h2' : ctx.args.head?.getD ("") = "" := by simpa using h2
      exact ⟨.msg ("config.json path cannot be empty"),
        by simp [runCommand, rawConfigBefore, h1, h2']⟩
    · exact ⟨.msg ("invalid number of positional arguments: expected <config.json>"),
        by simp [runCommand, rawConfigBefore, h1]⟩
  · intro h1 h2
    have h2' : ¬ ctx.args.head?.getD ("") = "" := by simpa using h2
    have hb : rawConfigBefore ctx.args = .ok (ctx.args.headD ("")) := by
      simp [rawConfigBefore, h1, h2']
    exact ⟨hb, by simp [runCommand, hb]⟩

/-- C9 witness: two positional arguments are rejected before anything runs,
and a single non-empty argument becomes the config path. -/
theorem C9_witness :
    ((¬ ((CliContext.mk [("a"), ("b")] ("image") ("latest") ("") []).args.length = 1 ∧
        (CliContext.mk [("a"), ("b")] ("image") ("latest") ("") []).args.headD ("") ≠ "")) →
      ∃ e, runCommand envOK (CliContext.mk [("a"), ("b")] ("image") ("latest") ("") [])
          ⟨storeOne, fs0⟩ =
        ⟨.error e, ⟨storeOne, fs0⟩, []⟩)
    ∧ ((CliContext.mk [("a"), ("b")] ("image") ("latest") ("") []).args.length = 1 →
        (CliContext.mk [("a"), ("b")] ("image") ("latest") ("") []).args.headD ("") ≠ "" →
        rawConfigBefore (CliContext.mk [("a"), ("b")] ("image") ("latest") ("") []).args =
          .ok ((CliContext.mk [("a"), ("b")] ("image") ("latest") ("") []).args.headD ("")) ∧
        runCommand envOK (CliContext.mk [("a"), ("b")] ("image") ("latest") ("") [])
            ⟨storeOne, fs0⟩ =
          rawConfig envOK (CliContext.mk [("a"), ("b")] ("image") ("latest") ("") [])
            ((CliContext.mk [("a"), ("b")] ("image") ("latest") ("") []).args.headD (""))
            ⟨storeOne, fs0⟩) :=
  C9_before_validates_args envOK (CliContext.mk [("a"), ("b")] ("image") ("latest") ("") [])
    ⟨storeOne, fs0⟩

/-- C10: when the store's decode step is well-formed — a blob declared
with the image-manifest media type decodes to a manifest — the dynamic
type assertion after the media-type check never fails: the blob's data is
a manifest, and the invocation's result is success or an operation-wrapped
error, never the unwrapped internal-error message of the unreachable
branch. -/
theorem C10_internal_error_unreachable (env : Env) (ctx : CliContext) (configPath : String)
    (w : World) (mo : MapOptions) (p : DescriptorPath) (b : Blob)
    (hwf : w.store.WF)
    (hp : env.parseIdmap ctx.rawIdmapFlags = .ok mo)
    (ho : env.dirOpenErr ctx.imagePath = none)
    (hr : w.store.resolveReference ctx.imageTag = .ok [p])
    (hf : w.store.fromDescriptor p.descriptor = .ok b)
    (hm : b.descriptor.mediaType = MediaTypeImageManifest) :
    (∃ m, b.data = .manifest m)
    ∧ ∀ e, (rawConfig env ctx configPath w).result = .error e → e.isWrapped = true := by
  obtain ⟨m, hd⟩ := hwf p.descriptor b hf hm
  refine ⟨⟨m, hd⟩, ?_⟩
  intro e he
  cases hc : env.createErr configPath with
  | some e0 =>
    have hrun : (rawConfig env ctx configPath w).result =
        .error (.wrap e0 ("opening config path")) := by
      simp only [rawConfig, hp, ho, hr]
      simp [hf, hm, hd, hc]
    rw [hrun] at he
    have : e = .wrap e0 ("opening config path") := (Except.error.inj he).symm
    simp [this, GoError.isWrapped]
  | none =>
    cases hu : env.unpackRuntimeJSON w.store m mo ctx.rootfs with
    | error e1 =>
      have hrun : (rawConfig env ctx configPath w).result =
          .error (.wrap e1 ("generate config")) := by
        simp only [rawConfig, hp, ho, hr]
        simp [hf, hm, hd, hc, hu]
      rw [hrun] at he
      have : e = .wrap e1 ("generate config") := (Except.error.inj he).symm
      simp [this, GoError.isWrapped]
    | ok bytes =>
      have hrun : (rawConfig env ctx configPath w).result = .ok () := by
        simp only [rawConfig, hp, ho, hr]
        simp [hf, hm, hd, hc, hu]
      rw [hrun] at he
      exact absurd he (by simp)

/-- C10 witness: a well-formed one-manifest store; the assertion holds and
the run succeeds. -/
theorem C10_witness :
    (∃ m, manifestBlob0.data = .manifest m)
    ∧ ∀ e, (rawConfig envOK ctx0 ("config.json") ⟨storeOne, fs0⟩).result = .error e →
        e.isWrapped = true :=
  C10_internal_error_unreachable envOK ctx0 ("config.json") ⟨storeOne, fs0⟩ mo0 path0
    manifestBlob0
    (by
      intro d b hb hmt
      injection hb with h
      subst h
      exact ⟨manifest0, rfl⟩)
    rfl rfl rfl rfl rfl

/-- Event traces are duplicate-free: no operation of the pipeline is ever
performed twice (in particular, nothing is retried). -/
theorem rawConfig_events_nodup (env : Env) (ctx : CliContext) (configPath : String) (w : World) :
    (rawConfig env ctx configPath w).events.Nodup := by
  unfold rawConfig
  repeat' split
  all_goals simp

/-- Exhaustive description of the errors an invocation can surface: the
idmap-parse error passed through unmodified, one of the five
operation-wrapped collaborator errors, or one of the three fresh messages
the action itself builds. -/
theorem rawConfig_error_cases (env : Env) (ctx : CliContext) (configPath : String) (w : World)
    (e : GoError) (he : (rawConfig env ctx configPath w).result = .error e) :
    env.parseIdmap ctx.rawIdmapFlags = .error e
    ∨ (∃ e0, e = .wrap e0 ("open CAS"))
    ∨ (∃ e0, e = .wrap e0 ("get descriptor"))
    ∨ e = .msg (("tag not found: ") ++ ctx.imageTag)
    ∨ e = .msg (("tag is ambiguous: ") ++ ctx.imageTag)
    ∨ (∃ e0, e = .wrap e0 ("get manifest"))
    ∨ (∃ mt, e = .wrap
        (.msg (("descriptor does not point to ispec.MediaTypeImageManifest: not implemented: ")
          ++ mt)) ("invalid --image tag"))
    ∨ (∃ mt, e = .msg (("[internal error] unknown manifest blob type: ") ++ mt))
    ∨ (∃ e0, e = .wrap e0 ("opening config path"))
    ∨ (∃ e0, e = .wrap e0 ("generate config")) := by
  unfold rawConfig at he
  repeat' split at he
  all_goals simp only [] at he
  all_goals (try injection he with he)
  all_goals (try subst he)
  all_goals simp_all

/-- C5 (amended): errors from store open, resolution, blob fetch, config
file creation and config generation are wrapped with the operation that
produced them, and the action's own checks fail with fresh messages naming
the reference; the idmap-parse error alone is surfaced to the caller
unmodified, without operation wrapping.  No operation is retried: the
event trace of a failing invocation is duplicate-free. -/
theorem C5_error_wrapping (env : Env) (ctx : CliContext) (configPath : String) (w : World)
    (e : GoError) (he : (rawConfig env ctx configPath w).result = .error e) :
    (env.parseIdmap ctx.rawIdmapFlags = .error e
    ∨ (∃ e0, e = .wrap e0 ("open CAS"))
    ∨ (∃ e0, e = .wrap e0 ("get descriptor"))
    ∨ e = .msg (("tag not found: ") ++ ctx.imageTag)
    ∨ e = .msg (("tag is ambiguous: ") ++ ctx.imageTag)
    ∨ (∃ e0, e = .wrap e0 ("get manifest"))
    ∨ (∃ mt, e = .wrap
        (.msg (("descriptor does not point to ispec.MediaTypeImageManifest: not implemented: ")
          ++ mt)) ("invalid --image tag"))
    ∨ (∃ mt, e = .msg (("[internal error] unknown manifest blob type: ") ++ mt))
    ∨ (∃ e0, e = .wrap e0 ("opening config path"))
    ∨ (∃ e0, e = .wrap e0 ("generate config")))
    ∧ (rawConfig env ctx configPath w).events.Nodup :=
  ⟨rawConfig_error_cases env ctx configPath w e he,
    rawConfig_events_nodup env ctx configPath w⟩

/-- C5 counterexample: a failing idmap parse is surfaced to the caller as
the bare parse error, not wrapped with any operation. -/
theorem C5_counterexample :
    (rawConfig envParseFail ctx0 ("config.json") ⟨storeOne, fs0⟩).result =
      .error (.msg ("invalid idmap options"))
    ∧ GoError.isWrapped (.msg ("invalid idmap options")) = false :=
  ⟨rfl, rfl⟩

/-- C5 witness: a failing resolution step surfaces as the inner error
wrapped with the resolution operation, with a duplicate-free trace. -/
theorem C5_witness :
    (envOK.parseIdmap ctx0.rawIdmapFlags =
        .error (.wrap (.msg ("io failure")) ("get descriptor"))
    ∨ (∃ e0, GoError.wrap (.msg ("io failure")) ("get descriptor") = .wrap e0 ("open CAS"))
    ∨ (∃ e0, GoError.wrap (.msg ("io failure")) ("get descriptor") = .wrap e0 ("get descriptor"))
    ∨ GoError.wrap (.msg ("io failure")) ("get descriptor") =
        .msg (("tag not found: ") ++ ctx0.imageTag)
    ∨ GoError.wrap (.msg ("io failure")) ("get descriptor") =
        .msg (("tag is ambiguous: ") ++ ctx0.imageTag)
    ∨ (∃ e0, GoError.wrap (.msg ("io failure")) ("get descriptor") = .wrap e0 ("get manifest"))
    ∨ (∃ mt, GoError.wrap (.msg ("io failure")) ("get descriptor") = .wrap
        (.msg (("descriptor does not point to ispec.MediaTypeImageManifest: not implemented: ")
          ++ mt)) ("invalid --image tag"))
    ∨ (∃ mt, GoError.wrap (.msg ("io failure")) ("get descriptor") =
        .msg (("[internal error] unknown manifest blob type: ") ++ mt))
    ∨ (∃ e0, GoError.wrap (.msg ("io failure")) ("get descriptor") =
        .wrap e0 ("opening config path"))
    ∨ (∃ e0, GoError.wrap (.msg ("io failure")) ("get descriptor") =
        .wrap e0 ("generate config")))
    ∧ (rawConfig envOK ctx0 ("config.json") ⟨storeResolveFail, fs0⟩).events.Nodup :=
  C5_error_wrapping envOK ctx0 ("config.json") ⟨storeResolveFail, fs0⟩
    (.wrap (.msg ("io failure")) ("get descriptor")) rfl

/-- C6: running the whole pipeline a second time with identical inputs,
starting from the world the first run produced, reproduces the first
outcome exactly — the same result, the same events, and in particular a
byte-identical output document at the destination path. -/
theorem C6_second_run_identical (env : Env) (ctx : CliContext) (configPath : String) (w : World) :
    rawConfig env ctx configPath (rawConfig env ctx configPath w).world =
      rawConfig env ctx configPath w := by
  cases hp : env.parseIdmap ctx.rawIdmapFlags with
  | error e => simp only [rawConfig, hp]
  | ok mo =>
  cases ho : env.dirOpenErr ctx.imagePath with
  | some e => simp only [rawConfig, hp, ho]
  | none =>
  cases hr : w.store.resolveReference ctx.imageTag with
  | error e => simp [rawConfig, hp, ho, hr]
  | ok paths =>
  by_cases h0 : paths.length = 0
  · simp [rawConfig, hp, ho, hr, h0]
  · by_cases h1 : paths.length = 1
    · obtain ⟨p, rfl⟩ := List.length_eq_one.mp h1
      cases hf : w.store.fromDescriptor p.descriptor with
      | error e => simp [rawConfig, hp, ho, hr, hf]
      | ok blob =>
        by_cases hm : blob.descriptor.mediaType = MediaTypeImageManifest
        · cases hd : blob.data with
          | manifest m =>
            cases hc : env.createErr configPath with
            | some e0 => simp [rawConfig, hp, ho, hr, hf, hm, hd, hc]
            | none =>
              cases hu : env.unpackRuntimeJSON w.store m mo ctx.rootfs with
              | error e1 =>
                simp [rawConfig, hp, ho, hr, hf, hm, hd, hc, hu, FS.setFile_setFile]
              | ok bytes =>
                simp [rawConfig, hp, ho, hr, hf, hm, hd, hc, hu, FS.setFile_setFile]
          | index l => simp [rawConfig, hp, ho, hr, hf, hm, hd]
          | raw bs => simp [rawConfig, hp, ho, hr, hf, hm, hd]
        · simp [rawConfig, hp, ho, hr, hf, hm]
    · simp [rawConfig, hp, ho, hr, h0, h1]

end Umoci
